import Mathlib

/-
Verification of the Typo blog application's post/customization repository
(src/typo/app.py) against its natural-language specification.

The embedding models:
  - JSON scalar values stored under record keys (null or string),
  - decoded mappings (dicts) with optional keys,
  - the BlogPost and BlogCustomization record types with their
    to_dict / from_dict serialization,
  - load_posts / save_posts over an abstract posts-file state,
  - the HTTP handlers as pure functions from server state and request
    data to a new server state and a response.

Nondeterministic time (datetime.now()) is modelled by threading the
generated id string and generated timestamp string as explicit
parameters, exactly at the two places the source calls the clock.
-/

/-- JSON scalar value stored under a key of a decoded mapping: JSON null or a
string. The repository's record fields only ever hold strings or null. -/
inductive JVal where
  | null : JVal
  | str : String → JVal
deriving DecidableEq, Repr

/-- Python view of a JSON value: null becomes None, a string stays itself. -/
def JVal.toOpt : JVal → Option String
  | JVal.null => none
  | JVal.str s => some s

/-- Serialization of an optional string field: None becomes JSON null. -/
def optToJVal : Option String → JVal
  | none => JVal.null
  | some s => JVal.str s

/-- Python dict.get(key) on an optional key holding a JSON value: an absent
key and a key holding null both give None. -/
def pyGet (v : Option JVal) : Option String :=
  v.bind JVal.toOpt

/-- A decoded JSON object with the five post keys; a key may be absent
(outer none) or present holding null or a string. -/
structure PostDict where
  id : Option JVal
  title : Option JVal
  content : Option JVal
  created_at : Option JVal
  image_path : Option JVal
deriving DecidableEq, Repr

/-- In-memory BlogPost object. The source guarantees id and created_at are
set by the constructor (a nonempty generated string when not supplied);
title, content and image_path hold the Python value, which may be None. -/
structure BlogPost where
  id : String
  title : Option String
  content : Option String
  created_at : String
  image_path : Option String
deriving DecidableEq, Repr

/-- Python expression v if v else gen over a string-or-None value, as used
by BlogPost's constructor: None and the empty string are falsy and trigger
generation. -/
def orGenerated (v : Option String) (gen : String) : String :=
  match v with
  | some s => if s = "" then gen else s
  | none => gen

/-- BlogPost constructor: id and created_at are generated (from the clock,
passed here as genId and genNow) when the supplied value is falsy;
title, content and image_path are stored as given. -/
def BlogPost.init (title content : Option String)
    (id createdAt imagePath : Option String)
    (genId genNow : String) : BlogPost :=
  { id := orGenerated id genId
  , title := title
  , content := content
  , created_at := orGenerated createdAt genNow
  , image_path := imagePath }

/-- BlogPost.to_dict: all five keys are emitted; None fields become null. -/
def BlogPost.to_dict (p : BlogPost) : PostDict :=
  { id := some (JVal.str p.id)
  , title := some (optToJVal p.title)
  , content := some (optToJVal p.content)
  , created_at := some (JVal.str p.created_at)
  , image_path := some (optToJVal p.image_path) }

/-- BlogPost.from_dict: direct indexing on title and content raises KeyError
when the key is absent; the optional keys go through dict.get and the
constructor's generation rules. -/
def BlogPost.from_dict (data : PostDict) (genId genNow : String) :
    Except String BlogPost :=
  match data.title, data.content with
  | some t, some c =>
      Except.ok (BlogPost.init t.toOpt c.toOpt
        (pyGet data.id) (pyGet data.created_at) (pyGet data.image_path)
        genId genNow)
  | none, _ => Except.error "KeyError: title"
  | some _, none => Except.error "KeyError: content"

/-- A decoded JSON object with the two customization keys. -/
structure CustDict where
  header_image : Option JVal
  bg_style : Option JVal
deriving DecidableEq, Repr

/-- In-memory BlogCustomization object; bg_style may become None when
decoded from an explicit null. -/
structure BlogCustomization where
  header_image : Option String
  bg_style : Option String
deriving DecidableEq, Repr

/-- BlogCustomization constructor: no header image, default style. -/
def BlogCustomization.init : BlogCustomization :=
  { header_image := none, bg_style := some "gradient1" }

/-- BlogCustomization.to_dict: both keys emitted, None becomes null. -/
def BlogCustomization.to_dict (c : BlogCustomization) : CustDict :=
  { header_image := some (optToJVal c.header_image)
  , bg_style := some (optToJVal c.bg_style) }

/-- BlogCustomization.from_dict: header_image via dict.get; bg_style via
dict.get with default "gradient1", which applies only when the key is
absent (a key holding null yields None). -/
def BlogCustomization.from_dict (data : CustDict) : BlogCustomization :=
  { header_image := pyGet data.header_image
  , bg_style := match data.bg_style with
      | none => some "gradient1"
      | some v => v.toOpt }

/-- Observable state of the posts file: absent, present but not valid JSON,
or a valid JSON array of objects. -/
inductive PostsFile where
  | missing : PostsFile
  | invalidJson : PostsFile
  | valid : List PostDict → PostsFile
deriving DecidableEq, Repr

/-- Decode the elements of a valid JSON array left to right, as the list
comprehension in load_posts does; the first KeyError aborts the whole
decode. The generators are indexed by element position since each element
may consult the clock. -/
def decodePosts (genId genNow : Nat → String) :
    Nat → List PostDict → Except String (List BlogPost)
  | _, [] => Except.ok []
  | i, d :: ds =>
    match BlogPost.from_dict d (genId i) (genNow i) with
    | Except.error e => Except.error e
    | Except.ok p =>
      match decodePosts genId genNow (i + 1) ds with
      | Except.error e => Except.error e
      | Except.ok ps => Except.ok (p :: ps)

/-- load_posts: empty list when the file is absent; empty list when the
file's text is not valid JSON (the JSONDecodeError is caught); otherwise
each element is decoded with BlogPost.from_dict and a KeyError from a
malformed element propagates (only JSONDecodeError is caught). -/
def load_posts (file : PostsFile) (genId genNow : Nat → String) :
    Except String (List BlogPost) :=
  match file with
  | PostsFile.missing => Except.ok []
  | PostsFile.invalidJson => Except.ok []
  | PostsFile.valid entries => decodePosts genId genNow 0 entries

/-- save_posts: the file is overwritten with the serialization of the full
in-memory list. -/
def save_posts (posts : List BlogPost) : PostsFile :=
  PostsFile.valid (posts.map BlogPost.to_dict)

/-- Server state: the in-memory posts list and the posts file contents. -/
structure ServerState where
  posts : List BlogPost
  file : PostsFile
deriving DecidableEq, Repr

/-- Body of an HTTP response produced by the handlers. -/
inductive Body where
  | jsonPost : PostDict → Body
  | jsonList : List PostDict → Body
  | jsonError : String → Body
  | jsonMessage : String → Body
  | text : String → Body
  | redirect : String → Body
deriving DecidableEq, Repr

/-- An HTTP response: status code and body. -/
structure Response where
  status : Nat
  body : Body
deriving DecidableEq, Repr

/-- First post with the given id, as the generator expression
next((post for post in posts if post.id == post_id), None). -/
def find_post (posts : List BlogPost) (pid : String) : Option BlogPost :=
  posts.find? (fun p => p.id == pid)

/-- GET /api/posts: list every post, serialized. -/
def get_posts (st : ServerState) : Response :=
  { status := 200, body := Body.jsonList (st.posts.map BlogPost.to_dict) }

/-- GET /api/posts/id: 404 when absent, else the serialized post. -/
def get_post (st : ServerState) (pid : String) : Response :=
  match find_post st.posts pid with
  | none => { status := 404, body := Body.jsonError "Post not found" }
  | some p => { status := 200, body := Body.jsonPost p.to_dict }

/-- POST /api/posts: 400 when the body is absent or lacks title or content
(an empty dict is also falsy, but it lacks both keys anyway); otherwise a
new post is constructed from title and content alone, appended, and the
collection saved. -/
def create_post_api (st : ServerState) (data : Option PostDict)
    (genId genNow : String) : ServerState × Response :=
  match data with
  | none =>
      (st, { status := 400, body := Body.jsonError "Title and content are required" })
  | some d =>
    match d.title, d.content with
    | some t, some c =>
      let newPost := BlogPost.init t.toOpt c.toOpt none none none genId genNow
      let posts' := st.posts ++ [newPost]
      ({ posts := posts', file := save_posts posts' },
       { status := 201, body := Body.jsonPost newPost.to_dict })
    | _, _ =>
      (st, { status := 400, body := Body.jsonError "Title and content are required" })

/-- Mutation performed by PUT /api/posts/id on the found post:
post.title = data.get('title', post.title) and likewise for content; the
dict.get default applies only when the key is absent, so a key holding
null sets the field to None. No other field is touched. -/
def applyUpdate (d : PostDict) (p : BlogPost) : BlogPost :=
  { p with
    title := match d.title with
      | none => p.title
      | some v => v.toOpt
  , content := match d.content with
      | none => p.content
      | some v => v.toOpt }

/-- In-place mutation of the first post with the given id, leaving every
other element untouched (the source mutates the object found first). -/
def update_first (posts : List BlogPost) (pid : String)
    (f : BlogPost → BlogPost) : List BlogPost :=
  match posts with
  | [] => []
  | p :: ps => if p.id == pid then f p :: ps else p :: update_first ps pid f

/-- PUT /api/posts/id: 404 when the id is absent; when present and the
request carried no JSON object, data.get on None raises and the umbrella
error handler answers 500; otherwise the first matching post is mutated,
the collection saved, and the updated post returned. -/
def update_post (st : ServerState) (pid : String) (data : Option PostDict) :
    ServerState × Response :=
  match find_post st.posts pid with
  | none => (st, { status := 404, body := Body.jsonError "Post not found" })
  | some p =>
    match data with
    | none => (st, { status := 500, body := Body.jsonError "Internal server error" })
    | some d =>
      let posts' := update_first st.posts pid (applyUpdate d)
      ({ posts := posts', file := save_posts posts' },
       { status := 200, body := Body.jsonPost (applyUpdate d p).to_dict })

/-- Removal of the first post with the given id (posts.remove on the object
found first). -/
def remove_first_id (posts : List BlogPost) (pid : String) : List BlogPost :=
  match posts with
  | [] => []
  | p :: ps => if p.id == pid then ps else p :: remove_first_id ps pid

/-- DELETE /api/posts/id: 404 when absent; else remove, save, 200. -/
def delete_post_api (st : ServerState) (pid : String) : ServerState × Response :=
  match find_post st.posts pid with
  | none => (st, { status := 404, body := Body.jsonError "Post not found" })
  | some _ =>
    let posts' := remove_first_id st.posts pid
    ({ posts := posts', file := save_posts posts' },
     { status := 200, body := Body.jsonMessage "Post deleted successfully" })

/-- POST /posts/id/delete (form): 404 plain text when absent; else remove,
save, redirect to the feed. -/
def delete_post (st : ServerState) (pid : String) : ServerState × Response :=
  match find_post st.posts pid with
  | none => (st, { status := 404, body := Body.text "Post not found!" })
  | some _ =>
    let posts' := remove_first_id st.posts pid
    ({ posts := posts', file := save_posts posts' },
     { status := 302, body := Body.redirect "feed" })

/-- POST /posts/create (form): no validation at all; title and content come
from request.form.get (None when the field is absent), image is the stored
relative path when a valid file was uploaded; the new post is prepended
and the collection saved. -/
def create_post (st : ServerState) (title content image : Option String)
    (genId genNow : String) : ServerState × Response :=
  let newPost := BlogPost.init title content none none image genId genNow
  let posts' := newPost :: st.posts
  ({ posts := posts', file := save_posts posts' },
   { status := 302, body := Body.redirect "feed" })

/-- Mutation performed by the form update on the found post: title and
content from request.form.get with the old value as fallback, image_path
replaced when a valid new file was uploaded. -/
def applyFormUpdate (title content newImage : Option String)
    (p : BlogPost) : BlogPost :=
  { p with
    title := match title with
      | none => p.title
      | some s => some s
  , content := match content with
      | none => p.content
      | some s => some s
  , image_path := match newImage with
      | none => p.image_path
      | some s => some s }

/-- POST /posts/id/update (form): 404 plain text when absent; else title and
content from the form with the old values as fallback, image_path replaced
when a valid file was uploaded; save and redirect. -/
def update_post_submit (st : ServerState) (pid : String)
    (title content newImage : Option String) : ServerState × Response :=
  match find_post st.posts pid with
  | none => (st, { status := 404, body := Body.text "Post not found!" })
  | some _ =>
    let posts' := update_first st.posts pid (applyFormUpdate title content newImage)
    ({ posts := posts', file := save_posts posts' },
     { status := 302, body := Body.redirect "feed" })

/-- One mutating request against the server, with the clock outputs the
handler would draw recorded in the operation. -/
inductive Op where
  | apiCreate : Option PostDict → String → String → Op
  | formCreate : Option String → Option String → Option String → String → String → Op
  | apiUpdate : String → Option PostDict → Op
  | formUpdate : String → Option String → Option String → Option String → Op
  | apiDelete : String → Op
  | formDelete : String → Op
deriving DecidableEq, Repr

/-- State transition of one operation (the response is dropped). -/
def runOp (st : ServerState) : Op → ServerState
  | Op.apiCreate data gI gN => (create_post_api st data gI gN).1
  | Op.formCreate t c img gI gN => (create_post st t c img gI gN).1
  | Op.apiUpdate pid data => (update_post st pid data).1
  | Op.formUpdate pid t c img => (update_post_submit st pid t c img).1
  | Op.apiDelete pid => (delete_post_api st pid).1
  | Op.formDelete pid => (delete_post st pid).1

/-- Run a sequence of operations left to right. -/
def runOps (st : ServerState) (ops : List Op) : ServerState :=
  ops.foldl runOp st

/-- Startup state on a fresh install: no posts file, empty collection. -/
def emptyState : ServerState :=
  { posts := [], file := PostsFile.missing }

/-- The id strings of the in-memory collection. -/
def idsOf (st : ServerState) : List String :=
  st.posts.map BlogPost.id

/-- The generated id an operation would assign to a newly created post. -/
def opGen : Op → Option String
  | Op.apiCreate _ gI _ => some gI
  | Op.formCreate _ _ _ gI _ => some gI
  | _ => none

/-- All generated ids carried by the create operations of a sequence. -/
def gensOf (ops : List Op) : List String :=
  ops.filterMap opGen

/-- Fixture: a request body with title "A" and content "B". -/
def dTC : PostDict :=
  { id := none, title := some (JVal.str "A"), content := some (JVal.str "B")
  , created_at := none, image_path := none }

/-- Fixture: an empty request body, lacking both required keys. -/
def dNone : PostDict :=
  { id := none, title := none, content := none
  , created_at := none, image_path := none }

/-- Fixture: a record carrying an explicit empty-string id alongside the
required keys. -/
def dEmptyId : PostDict :=
  { id := some (JVal.str ""), title := some (JVal.str "T")
  , content := some (JVal.str "C"), created_at := none, image_path := none }

/-- Fixture: a stored post with an image. -/
def p0 : BlogPost :=
  { id := "1", title := some "T", content := some "C"
  , created_at := "2025-10-01T00:00:00", image_path := some "uploads/a.png" }

/-- Fixture: a server state holding exactly p0, persisted. -/
def st0 : ServerState :=
  { posts := [p0], file := save_posts [p0] }

/-- Fixture: a partial update carrying only the image_path key. -/
def dImgOnly : PostDict :=
  { id := none, title := none, content := none
  , created_at := none, image_path := some (JVal.str "uploads/b.png") }

/-- Fixture: a mixed operation sequence whose create operations carry
pairwise distinct generated ids. -/
def opsW : List Op :=
  [ Op.apiCreate (some dTC) "1.0" "t1"
  , Op.formCreate (some "x") (some "y") none "2.0" "t2"
  , Op.apiUpdate "1.0" (some dImgOnly)
  , Op.apiDelete "2.0"
  , Op.apiCreate (some dTC) "3.0" "t3" ]

/-- Fixture: two API creates drawing the same timestamp from the clock. -/
def opsDup : List Op :=
  [ Op.apiCreate (some dTC) "1700000000.0" "t"
  , Op.apiCreate (some dTC) "1700000000.0" "t" ]

/-- Deserializing a serialized optional string gives it back. -/
theorem toOpt_optToJVal (x : Option String) : (optToJVal x).toOpt = x := by
  cases x <;> rfl

/-- C9: a SiteCustomization round-trips through its mapping form in both
fields, and decoding an empty mapping yields the default record with
bg_style "gradient1" and no header image. -/
theorem C9_customization_round_trip (c : BlogCustomization) :
    BlogCustomization.from_dict c.to_dict = c
    ∧ BlogCustomization.from_dict { header_image := none, bg_style := none } =
        { header_image := none, bg_style := some "gradient1" } := by
  constructor
  · cases c with
    | mk hi bg =>
      simp [BlogCustomization.from_dict, BlogCustomization.to_dict, pyGet,
        toOpt_optToJVal]
  · rfl

/-- C10: the form-based create path performs no validation: with both form
fields absent it builds a post whose title and content are None, prepends
it, persists, and redirects; the API path rejects the analogous bodiless
request with 400. -/
theorem C10_form_create_no_validation (st : ServerState) (gI gN : String) :
    create_post st none none none gI gN =
      ({ posts := BlogPost.init none none none none none gI gN :: st.posts
       , file := save_posts (BlogPost.init none none none none none gI gN :: st.posts) },
       { status := 302, body := Body.redirect "feed" })
    ∧ (BlogPost.init none none none none none gI gN).title = none
    ∧ (BlogPost.init none none none none none gI gN).content = none
    ∧ create_post_api st (some dNone) gI gN =
        (st, { status := 400, body := Body.jsonError "Title and content are required" }) := by
  refine ⟨rfl, rfl, rfl, rfl⟩

/-- C6: a BlogPost round-trips through its mapping form in all five fields;
the hypotheses record the constructor's invariant that id and created_at
are nonempty strings (generated values are nonempty clock strings). -/
theorem C6_post_round_trip (p : BlogPost) (gI gN : String)
    (h1 : p.id ≠ "") (h2 : p.created_at ≠ "") :
    BlogPost.from_dict p.to_dict gI gN = Except.ok p := by
  cases p with
  | mk i t c ca ip =>
    simp only [ne_eq] at h1 h2
    cases t <;> cases c <;> cases ip <;>
      simp [BlogPost.from_dict, BlogPost.to_dict, BlogPost.init, pyGet,
        optToJVal, orGenerated, JVal.toOpt, h1, h2]

/-- C6 witness: the round-trip evaluated at a concrete post. -/
theorem C6_post_round_trip_witness :
    BlogPost.from_dict p0.to_dict "9.9" "now" = Except.ok p0 :=
  C6_post_round_trip p0 "9.9" "now" (by decide) (by decide)

/-- Every constructed BlogPost has nonempty id and created_at, provided the
clock strings are nonempty (str(timestamp) and isoformat always are). -/
theorem init_id_created_at_nonempty (t c i ca ip : Option String)
    (gI gN : String) (hI : gI ≠ "") (hN : gN ≠ "") :
    (BlogPost.init t c i ca ip gI gN).id ≠ ""
    ∧ (BlogPost.init t c i ca ip gI gN).created_at ≠ "" := by
  constructor
  · cases i with
    | none => exact hI
    | some s =>
      by_cases hs : s = "" <;> simp [BlogPost.init, orGenerated, hs, hI]
  · cases ca with
    | none => exact hN
    | some s =>
      by_cases hs : s = "" <;> simp [BlogPost.init, orGenerated, hs, hN]

/-- C5 counterexample: the claim says values present in the mapping are
preserved unchanged, but an id present as the empty string is replaced by
a freshly generated id, because the constructor tests Python truthiness
rather than key presence. -/
theorem C5_counterexample :
    dEmptyId.id = some (JVal.str "")
    ∧ BlogPost.from_dict dEmptyId "GEN" "NOW" =
        Except.ok { id := "GEN", title := some "T", content := some "C"
                  , created_at := "NOW", image_path := none }
    ∧ "GEN" ≠ "" :=
  ⟨rfl, rfl, by decide⟩

/-- C5 amended: from_dict fails exactly when the title or content key is
missing; absent id, created_at, image_path default via the generation
rules; title, content and image_path values present are preserved (null
becoming None); a present id or created_at is preserved only when it is a
truthy (nonempty) string, an empty or null one being regenerated. -/
theorem C5_from_dict_amended (d : PostDict) (gI gN : String) :
    ((∃ e, BlogPost.from_dict d gI gN = Except.error e) ↔
        (d.title = none ∨ d.content = none))
    ∧ ∀ p, BlogPost.from_dict d gI gN = Except.ok p →
        (d.id = none → p.id = gI)
        ∧ (d.created_at = none → p.created_at = gN)
        ∧ (d.image_path = none → p.image_path = none)
        ∧ (∀ v, d.title = some v → p.title = v.toOpt)
        ∧ (∀ v, d.content = some v → p.content = v.toOpt)
        ∧ (∀ v, d.image_path = some v → p.image_path = v.toOpt)
        ∧ (∀ s, d.id = some (JVal.str s) → s ≠ "" → p.id = s)
        ∧ (∀ s, d.created_at = some (JVal.str s) → s ≠ "" → p.created_at = s) := by
  cases hT : d.title with
  | none =>
    constructor
    · simp [BlogPost.from_dict, hT]
    · intro p hp
      simp [BlogPost.from_dict, hT] at hp
  | some t =>
    cases hC : d.content with
    | none =>
      constructor
      · simp [BlogPost.from_dict, hT, hC]
      · intro p hp
        simp [BlogPost.from_dict, hT, hC] at hp
    | some c =>
      constructor
      · simp [BlogPost.from_dict, hT, hC]
      · intro p hp
        simp only [BlogPost.from_dict, hT, hC, Except.ok.injEq] at hp
        subst hp
        refine ⟨?_, ?_, ?_, ?_, ?_, ?_, ?_, ?_⟩
        · intro h; simp [BlogPost.init, pyGet, h, orGenerated]
        · intro h; simp [BlogPost.init, pyGet, h, orGenerated]
        · intro h; simp [BlogPost.init, pyGet, h]
        · intro v hv
          injection hv with h
          subst h
          rfl
        · intro v hv
          injection hv with h
          subst h
          rfl
        · intro v hv
          simp [BlogPost.init, pyGet, hv]
        · intro s hs hne
          simp [BlogPost.init, pyGet, hs, orGenerated, JVal.toOpt, hne]
        · intro s hs hne
          simp [BlogPost.init, pyGet, hs, orGenerated, JVal.toOpt, hne]

/-- C5 amended witness: the decode error at a bodiless record and the
generated id at a record without one, via the amended theorem. -/
theorem C5_from_dict_amended_witness :
    (∃ e, BlogPost.from_dict dNone "G" "N" = Except.error e)
    ∧ (BlogPost.init (some "A") (some "B") none none none "G" "N").id = "G" :=
  ⟨(C5_from_dict_amended dNone "G" "N").1.mpr (Or.inl rfl),
   ((C5_from_dict_amended dTC "G" "N").2 _ rfl).1 rfl⟩

/-- A record missing a required key makes from_dict fail. -/
theorem from_dict_error_of_missing (d : PostDict) (gI gN : String)
    (h : d.title = none ∨ d.content = none) :
    ∃ e, BlogPost.from_dict d gI gN = Except.error e := by
  cases hT : d.title with
  | none => exact ⟨"KeyError: title", by simp [BlogPost.from_dict, hT]⟩
  | some t =>
    rcases h with h | h
    · rw [hT] at h; cases h
    · exact ⟨"KeyError: content", by simp [BlogPost.from_dict, hT, h]⟩

/-- A malformed element anywhere in the array makes the whole decode fail. -/
theorem decodePosts_error_of_bad (gI gN : Nat → String) (d : PostDict)
    (hbad : d.title = none ∨ d.content = none) :
    ∀ (entries : List PostDict) (i : Nat), d ∈ entries →
      ∃ e, decodePosts gI gN i entries = Except.error e := by
  intro entries
  induction entries with
  | nil => intro i h; cases h
  | cons x xs ih =>
    intro i hmem
    rcases List.mem_cons.mp hmem with hx | hx
    · subst hx
      obtain ⟨e, he⟩ := from_dict_error_of_missing d (gI i) (gN i) hbad
      exact ⟨e, by simp [decodePosts, he]⟩
    · cases hfd : BlogPost.from_dict x (gI i) (gN i) with
      | error e2 => exact ⟨e2, by simp [decodePosts, hfd]⟩
      | ok p =>
        obtain ⟨e, he⟩ := ih (i + 1) hx
        exact ⟨e, by simp [decodePosts, hfd, he]⟩

/-- C2: load_posts is fail-soft on a missing file and on invalid JSON text,
returning the empty list; but a valid JSON array containing an element
that lacks title or content makes the whole load fail, the element's
decode error propagating out. -/
theorem C2_load_posts (gI gN : Nat → String) (entries : List PostDict)
    (d : PostDict) :
    load_posts PostsFile.missing gI gN = Except.ok []
    ∧ load_posts PostsFile.invalidJson gI gN = Except.ok []
    ∧ (d ∈ entries → (d.title = none ∨ d.content = none) →
        ∃ e, load_posts (PostsFile.valid entries) gI gN = Except.error e) := by
  refine ⟨rfl, rfl, ?_⟩
  intro hmem hbad
  exact decodePosts_error_of_bad gI gN d hbad entries 0 hmem

/-- C2 witness: a one-element array whose element lacks both required keys
fails to load, via the theorem. -/
theorem C2_load_posts_witness :
    ∃ e, load_posts (PostsFile.valid [dNone]) (fun _ => "g") (fun _ => "n") =
      Except.error e :=
  (C2_load_posts (fun _ => "g") (fun _ => "n") [dNone] dNone).2.2 (by simp)
    (Or.inl rfl)

/-- C1: the API create rejects an absent body or one lacking title or
content with 400 and the required-fields error, leaving the collection
untouched; otherwise it answers 201 with a record carrying the submitted
title and content and the freshly generated id, appends it, persists, and
the record appears in the subsequent full listing. -/
theorem C1_create_post_api (st : ServerState) (data : Option PostDict)
    (gI gN : String) :
    ((data = none ∨ ∃ d, data = some d ∧ (d.title = none ∨ d.content = none)) →
      create_post_api st data gI gN =
        (st, { status := 400, body := Body.jsonError "Title and content are required" }))
    ∧ ∀ d t c, data = some d → d.title = some t → d.content = some c →
        ∃ p : BlogPost,
          create_post_api st data gI gN =
            ({ posts := st.posts ++ [p], file := save_posts (st.posts ++ [p]) },
             { status := 201, body := Body.jsonPost p.to_dict })
          ∧ p.title = t.toOpt ∧ p.content = c.toOpt ∧ p.id = gI
          ∧ ∃ l, get_posts (create_post_api st data gI gN).1 =
              { status := 200, body := Body.jsonList l } ∧ p.to_dict ∈ l := by
  constructor
  · rintro (h | ⟨d, hd, hbad⟩)
    · subst h; rfl
    · subst hd
      cases hT : d.title with
      | none => simp [create_post_api, hT]
      | some t =>
        cases hC : d.content with
        | none => simp [create_post_api, hT, hC]
        | some c =>
          rcases hbad with h | h
          · rw [hT] at h; cases h
          · rw [hC] at h; cases h
  · rintro d t c rfl ht hc
    refine ⟨BlogPost.init t.toOpt c.toOpt none none none gI gN, ?_, rfl, rfl, rfl, ?_⟩
    · simp [create_post_api, ht, hc]
    · refine ⟨((st.posts ++ [BlogPost.init t.toOpt c.toOpt none none none gI gN]).map
        BlogPost.to_dict), ?_, ?_⟩
      · simp [create_post_api, ht, hc, get_posts]
      · simp

/-- C1 witness: the 400 branch at a bodiless request and the 201 branch at
title "A" and content "B", via the theorem at concrete inputs. -/
theorem C1_create_post_api_witness :
    create_post_api emptyState none "9" "n" =
      (emptyState, { status := 400, body := Body.jsonError "Title and content are required" })
    ∧ ∃ p : BlogPost,
        create_post_api emptyState (some dTC) "9" "n" =
          ({ posts := emptyState.posts ++ [p]
            , file := save_posts (emptyState.posts ++ [p]) },
           { status := 201, body := Body.jsonPost p.to_dict })
        ∧ p.title = (JVal.str "A").toOpt ∧ p.content = (JVal.str "B").toOpt
        ∧ p.id = "9"
        ∧ ∃ l, get_posts (create_post_api emptyState (some dTC) "9" "n").1 =
            { status := 200, body := Body.jsonList l } ∧ p.to_dict ∈ l :=
  ⟨(C1_create_post_api emptyState none "9" "n").1 (Or.inl rfl),
   (C1_create_post_api emptyState (some dTC) "9" "n").2 dTC
     (JVal.str "A") (JVal.str "B") rfl rfl rfl⟩

/-- A post whose id does not match stays in the list across update_first. -/
theorem update_first_mem_of_ne (posts : List BlogPost) (pid : String)
    (f : BlogPost → BlogPost) (q : BlogPost) (hq : q ∈ posts)
    (hne : q.id ≠ pid) :
    q ∈ update_first posts pid f := by
  induction posts with
  | nil => cases hq
  | cons p ps ih =>
    simp only [update_first]
    rcases List.mem_cons.mp hq with h | h
    · subst h
      rw [if_neg (by simpa using hne)]
      exact List.mem_cons_self q _
    · by_cases hp : p.id = pid
      · rw [if_pos (by simpa using hp)]
        exact List.mem_cons_of_mem _ h
      · rw [if_neg (by simpa using hp)]
        exact List.mem_cons_of_mem _ (ih h)

/-- C3 counterexample: the claim says every field present in the partial
update mapping is set, but a mapping carrying only image_path leaves the
post's image_path unchanged: the API update only ever applies title and
content. -/
theorem C3_counterexample :
    dImgOnly.image_path = some (JVal.str "uploads/b.png")
    ∧ (update_post st0 "1" (some dImgOnly)).1.posts = [p0]
    ∧ p0.image_path = some "uploads/a.png"
    ∧ some "uploads/a.png" ≠ (JVal.str "uploads/b.png").toOpt :=
  ⟨rfl, rfl, rfl, by decide⟩

/-- C3 amended: on an existing post the API update applies exactly the
title and content keys present in the mapping, leaves a key absent from
the mapping unchanged, never changes id, created_at or image_path (an
image_path key in the mapping is ignored), leaves every other post in
place, and persists the collection. -/
theorem C3_update_partial_amended (st : ServerState) (pid : String)
    (d : PostDict) (p : BlogPost)
    (hfind : find_post st.posts pid = some p) :
    update_post st pid (some d) =
      ({ posts := update_first st.posts pid (applyUpdate d)
        , file := save_posts (update_first st.posts pid (applyUpdate d)) },
       { status := 200, body := Body.jsonPost (applyUpdate d p).to_dict })
    ∧ (d.title = none → (applyUpdate d p).title = p.title)
    ∧ (∀ v, d.title = some v → (applyUpdate d p).title = v.toOpt)
    ∧ (d.content = none → (applyUpdate d p).content = p.content)
    ∧ (∀ v, d.content = some v → (applyUpdate d p).content = v.toOpt)
    ∧ (applyUpdate d p).id = p.id
    ∧ (applyUpdate d p).created_at = p.created_at
    ∧ (applyUpdate d p).image_path = p.image_path
    ∧ ∀ q, q ∈ st.posts → q.id ≠ pid →
        q ∈ (update_post st pid (some d)).1.posts := by
  refine ⟨by simp [update_post, hfind], ?_, ?_, ?_, ?_, rfl, rfl, rfl, ?_⟩
  · intro h; simp [applyUpdate, h]
  · intro v hv; simp [applyUpdate, hv]
  · intro h; simp [applyUpdate, h]
  · intro v hv; simp [applyUpdate, hv]
  · intro q hq hne
    simp only [update_post, hfind]
    exact update_first_mem_of_ne st.posts pid (applyUpdate d) q hq hne

/-- C3 amended witness: the update of the stored fixture post with an
image_path-only mapping, via the amended theorem. -/
theorem C3_update_partial_amended_witness :
    update_post st0 "1" (some dImgOnly) =
      ({ posts := update_first st0.posts "1" (applyUpdate dImgOnly)
        , file := save_posts (update_first st0.posts "1" (applyUpdate dImgOnly)) },
       { status := 200, body := Body.jsonPost (applyUpdate dImgOnly p0).to_dict })
    ∧ (applyUpdate dImgOnly p0).image_path = p0.image_path :=
  ⟨(C3_update_partial_amended st0 "1" dImgOnly p0 rfl).1,
   (C3_update_partial_amended st0 "1" dImgOnly p0 rfl).2.2.2.2.2.2.2.1⟩

/-- C4: the API get, update and delete answer 404 with the post-not-found
error exactly when no post carries the id; and after an update of an
absent id (which leaves the state unchanged), a delete of the same id
answers 404 as well. -/
theorem C4_not_found_404 (st : ServerState) (pid : String)
    (data : Option PostDict) :
    (get_post st pid = { status := 404, body := Body.jsonError "Post not found" }
        ↔ find_post st.posts pid = none)
    ∧ ((update_post st pid data).2 = { status := 404, body := Body.jsonError "Post not found" }
        ↔ find_post st.posts pid = none)
    ∧ ((delete_post_api st pid).2 = { status := 404, body := Body.jsonError "Post not found" }
        ↔ find_post st.posts pid = none)
    ∧ (find_post st.posts pid = none →
        update_post st pid data =
          (st, { status := 404, body := Body.jsonError "Post not found" })
        ∧ (delete_post_api (update_post st pid data).1 pid).2 =
          { status := 404, body := Body.jsonError "Post not found" }) := by
  cases hf : find_post st.posts pid with
  | none => cases data <;> simp [get_post, update_post, delete_post_api, hf]
  | some p => cases data <;> simp [get_post, update_post, delete_post_api, hf]

/-- C4 witness: on the empty state every id is absent; update answers 404
leaving the state unchanged and the subsequent delete answers 404. -/
theorem C4_not_found_404_witness :
    update_post emptyState "z" none =
      (emptyState, { status := 404, body := Body.jsonError "Post not found" })
    ∧ (delete_post_api (update_post emptyState "z" none).1 "z").2 =
      { status := 404, body := Body.jsonError "Post not found" } :=
  (C4_not_found_404 emptyState "z" none).2.2.2 rfl

/-- C8: with a valid body the API create appends the new post at the end of
the sequence while the form create prepends it at the start; in both cases
the pre-existing posts stay in place in order and the whole sequence is
persisted. -/
theorem C8_insertion_ends (st : ServerState) (d : PostDict) (t c : JVal)
    (title content image : Option String) (gI gN : String)
    (ht : d.title = some t) (hc : d.content = some c) :
    (∃ p : BlogPost,
        (create_post_api st (some d) gI gN).1.posts = st.posts ++ [p]
        ∧ (create_post_api st (some d) gI gN).1.file = save_posts (st.posts ++ [p]))
    ∧ ∃ q : BlogPost,
        (create_post st title content image gI gN).1.posts = q :: st.posts
        ∧ (create_post st title content image gI gN).1.file = save_posts (q :: st.posts) := by
  constructor
  · exact ⟨BlogPost.init t.toOpt c.toOpt none none none gI gN,
      by simp [create_post_api, ht, hc], by simp [create_post_api, ht, hc]⟩
  · exact ⟨BlogPost.init title content none none image gI gN, rfl, rfl⟩

/-- C8 witness: both insertion ends at concrete requests on the empty
state, via the theorem. -/
theorem C8_insertion_ends_witness :
    (∃ p : BlogPost,
        (create_post_api emptyState (some dTC) "7" "n").1.posts = emptyState.posts ++ [p]
        ∧ (create_post_api emptyState (some dTC) "7" "n").1.file =
            save_posts (emptyState.posts ++ [p]))
    ∧ ∃ q : BlogPost,
        (create_post emptyState (some "x") (some "y") none "7" "n").1.posts =
            q :: emptyState.posts
        ∧ (create_post emptyState (some "x") (some "y") none "7" "n").1.file =
            save_posts (q :: emptyState.posts) :=
  C8_insertion_ends emptyState dTC (JVal.str "A") (JVal.str "B")
    (some "x") (some "y") none "7" "n" rfl rfl

/-- update_first preserves the ids of the list when the mutation preserves
the id of the mutated post. -/
theorem update_first_map_id (posts : List BlogPost) (pid : String)
    (f : BlogPost → BlogPost) (hf : ∀ p, (f p).id = p.id) :
    (update_first posts pid f).map BlogPost.id = posts.map BlogPost.id := by
  induction posts with
  | nil => rfl
  | cons p ps ih =>
    simp only [update_first]
    by_cases hp : p.id = pid
    · rw [if_pos (by simpa using hp)]
      simp [hf]
    · rw [if_neg (by simpa using hp)]
      simp [ih]

/-- Removing the first post with a given id yields a sublist. -/
theorem remove_first_id_sublist (posts : List BlogPost) (pid : String) :
    List.Sublist (remove_first_id posts pid) posts := by
  induction posts with
  | nil => exact List.Sublist.refl _
  | cons p ps ih =>
    simp only [remove_first_id]
    by_cases hp : p.id = pid
    · rw [if_pos (by simpa using hp)]
      exact List.sublist_cons_self p ps
    · rw [if_neg (by simpa using hp)]
      exact ih.cons₂ p

/-- Generated ids of a sequence, unfolded one operation. -/
theorem gensOf_cons (op : Op) (ops : List Op) :
    gensOf (op :: ops) = match opGen op with
      | none => gensOf ops
      | some g => g :: gensOf ops := by
  cases h : opGen op <;> simp [gensOf, List.filterMap_cons, h]

/-- Any single operation either keeps the id list a sublist of what it was
(updates and failed operations keep it equal, deletes shrink it) or,
for a successful create, appends or prepends exactly its generated id. -/
theorem runOp_ids (st : ServerState) (op : Op) :
    List.Sublist (idsOf (runOp st op)) (idsOf st)
    ∨ ∃ g, opGen op = some g
        ∧ (idsOf (runOp st op) = idsOf st ++ [g]
           ∨ idsOf (runOp st op) = g :: idsOf st) := by
  cases op with
  | apiCreate data gI gN =>
    cases data with
    | none => exact Or.inl (List.Sublist.refl _)
    | some d =>
      cases hT : d.title with
      | none =>
        left
        simp only [runOp, create_post_api, hT]
        exact List.Sublist.refl _
      | some t =>
        cases hC : d.content with
        | none =>
          left
          simp only [runOp, create_post_api, hT, hC]
          exact List.Sublist.refl _
        | some c =>
          right
          refine ⟨gI, rfl, Or.inl ?_⟩
          simp [runOp, create_post_api, hT, hC, idsOf, BlogPost.init, orGenerated]
  | formCreate t c img gI gN =>
    right
    refine ⟨gI, rfl, Or.inr ?_⟩
    simp [runOp, create_post, idsOf, BlogPost.init, orGenerated]
  | apiUpdate pid data =>
    left
    cases hf : find_post st.posts pid with
    | none =>
      simp only [runOp, update_post, hf]
      exact List.Sublist.refl _
    | some p =>
      cases data with
      | none =>
        simp only [runOp, update_post, hf]
        exact List.Sublist.refl _
      | some d =>
        simp only [runOp, update_post, hf, idsOf]
        rw [update_first_map_id st.posts pid (applyUpdate d) (fun q => rfl)]
  | formUpdate pid t c img =>
    left
    cases hf : find_post st.posts pid with
    | none =>
      simp only [runOp, update_post_submit, hf]
      exact List.Sublist.refl _
    | some p =>
      simp only [runOp, update_post_submit, hf, idsOf]
      rw [update_first_map_id st.posts pid (applyFormUpdate t c img) (fun q => rfl)]
  | apiDelete pid =>
    left
    cases hf : find_post st.posts pid with
    | none =>
      simp only [runOp, delete_post_api, hf]
      exact List.Sublist.refl _
    | some p =>
      simp only [runOp, delete_post_api, hf, idsOf]
      exact (remove_first_id_sublist st.posts pid).map BlogPost.id
  | formDelete pid =>
    left
    cases hf : find_post st.posts pid with
    | none =>
      simp only [runOp, delete_post, hf]
      exact List.Sublist.refl _
    | some p =>
      simp only [runOp, delete_post, hf, idsOf]
      exact (remove_first_id_sublist st.posts pid).map BlogPost.id

/-- Invariant propagation: from a state with pairwise distinct ids none of
which will be generated again, any operation sequence whose create
operations carry pairwise distinct generated ids keeps the ids distinct. -/
theorem runOps_ids_nodup (ops : List Op) :
    ∀ st : ServerState, (idsOf st).Nodup → (gensOf ops).Nodup →
      (∀ i ∈ idsOf st, i ∉ gensOf ops) →
      (idsOf (runOps st ops)).Nodup := by
  induction ops with
  | nil => intro st h1 _ _; exact h1
  | cons op ops ih =>
    intro st h1 h2 h3
    have hstep : runOps st (op :: ops) = runOps (runOp st op) ops := rfl
    rw [hstep]
    cases hop : opGen op with
    | none =>
      have hcons : gensOf (op :: ops) = gensOf ops := by rw [gensOf_cons, hop]
      rw [hcons] at h2 h3
      rcases runOp_ids st op with hsub | ⟨g, hg, _⟩
      · exact ih _ (h1.sublist hsub) h2 (fun i hi => h3 i (hsub.subset hi))
      · rw [hop] at hg; cases hg
    | some g0 =>
      have hcons : gensOf (op :: ops) = g0 :: gensOf ops := by rw [gensOf_cons, hop]
      rw [hcons] at h2 h3
      have h2' : (gensOf ops).Nodup := (List.nodup_cons.mp h2).2
      have hg0 : g0 ∉ gensOf ops := (List.nodup_cons.mp h2).1
      have h3' : ∀ i ∈ idsOf st, i ∉ gensOf ops := by
        intro i hi hmem
        exact h3 i hi (List.mem_cons_of_mem _ hmem)
      have hg0st : g0 ∉ idsOf st := by
        intro hmem
        exact h3 g0 hmem (List.mem_cons_self _ _)
      rcases runOp_ids st op with hsub | ⟨g, hg, hcase⟩
      · exact ih _ (h1.sublist hsub) h2' (fun i hi => h3' i (hsub.subset hi))
      · rw [hop] at hg
        injection hg with hgg
        subst hgg
        rcases hcase with hap | hpre
        · refine ih _ ?_ h2' ?_
          · rw [hap]
            exact List.nodup_append.mpr
              ⟨h1, List.nodup_singleton g0, by simpa using hg0st⟩
          · intro i hi
            rw [hap] at hi
            rcases List.mem_append.mp hi with hi | hi
            · exact h3' i hi
            · have hig : i = g0 := List.mem_singleton.mp hi
              subst hig
              exact hg0
        · refine ih _ ?_ h2' ?_
          · rw [hpre]
            exact List.nodup_cons.mpr ⟨hg0st, h1⟩
          · intro i hi
            rw [hpre] at hi
            rcases List.mem_cons.mp hi with hig | hi
            · subst hig
              exact hg0
            · exact h3' i hi

/-- C7 counterexample: two API creates whose time-based id generator
returns the same timestamp string yield two posts with equal ids in a
reachable state, so the code alone does not maintain the claimed
uniqueness invariant. -/
theorem C7_counterexample :
    ¬ (idsOf (runOps emptyState opsDup)).Nodup := by decide

/-- C7 amended: in every state reachable from the empty collection by
create (API or form), update and delete operations, the ids are pairwise
distinct, provided the clock-generated id strings supplied to the create
operations of the sequence are themselves pairwise distinct. -/
theorem C7_unique_ids_amended (ops : List Op)
    (h : (gensOf ops).Nodup) :
    (idsOf (runOps emptyState ops)).Nodup :=
  runOps_ids_nodup ops emptyState (by simp [idsOf, emptyState]) h
    (by intro i hi; simp [idsOf, emptyState] at hi)

/-- C7 amended witness: a concrete mixed sequence with distinct generated
ids keeps the collection's ids distinct, via the amended theorem. -/
theorem C7_unique_ids_amended_witness :
    (gensOf opsW).Nodup ∧ (idsOf (runOps emptyState opsW)).Nodup :=
  ⟨by decide, C7_unique_ids_amended opsW (by decide)⟩
